import Mathlib

/-!
Shallow embedding of the data-reshaping and aggregation pipeline of
`src/main.py` (TMDb movie dashboard), together with theorems settling the
specification claims about it.

Modelling conventions:
* A pandas DataFrame becomes a `List` of record structures; `NaN` / absent
  cells become `Option` `none`.
* Numeric columns (`budget`, `revenue`, `vote_average`) are modelled by `ℚ`
  (the dataset values are exact decimals; no float-rounding issue is at
  stake in any claim).
* `pd.to_datetime(...).dt.year` is modelled by an `Option Int` year column:
  the claims only ever consume the derived year.
* `ast.literal_eval` is modelled parametrically by a function
  `litEval : String → Except String (List NamedObj)`; a raised exception is
  an `Except.error` value.
* `Series.idxmax` on an all-empty series raises `ValueError` in pandas; the
  model returns `none` in exactly that case, so `none` marks the raising
  path.
-/

namespace TMDb

/-- One element of a parsed `genres` / `production_companies` cell: the
serialized cells hold lists of objects with `id` and `name` fields. -/
structure NamedObj where
  id : Int
  name : String
deriving DecidableEq

/-- Line 25 / lines 133-135 of `main.py`:
`ast.literal_eval(x) if pd.notna(x) and x != "" else []`.
The cell is `none` when `pd.notna(x)` is false.  `litEval` models
`ast.literal_eval`; a malformed literal is an `Except.error`. -/
def parseListCell (litEval : String → Except String (List NamedObj))
    (cell : Option String) : Except String (List NamedObj) :=
  match cell with
  | none => Except.ok []
  | some s => if s = "" then Except.ok [] else litEval s

/-- Lines 26 and 136: `[d["name"] for d in x]`. -/
def namesOf (objs : List NamedObj) : List String :=
  objs.map (fun d => d.name)

/-- A row of the loaded table after the nested-list cells were parsed
(the columns the pipeline consumes). -/
structure Movie where
  title : String
  budget : Option ℚ
  revenue : ℚ
  vote_average : Option ℚ
  release_year : Option Int
  original_language : String
  genres : List NamedObj
  production_companies : List NamedObj
deriving DecidableEq

/-- A row of `df_exploded_genres` (line 27): `genre_name` now holds one
scalar genre name, or the null marker for a movie with no genres. -/
structure GRow where
  title : String
  budget : Option ℚ
  revenue : ℚ
  vote_average : Option ℚ
  release_year : Option Int
  original_language : String
  production_companies : List NamedObj
  genre_name : Option String
deriving DecidableEq

/-- A row of `df_exploded_companies` (line 137). -/
structure CRow where
  title : String
  budget : Option ℚ
  revenue : ℚ
  vote_average : Option ℚ
  release_year : Option Int
  original_language : String
  genre_name : Option String
  company_name : Option String
deriving DecidableEq

/-- `pandas.DataFrame.explode` on one cell: a non-empty list yields one
scalar per element, an empty list yields a single null marker. -/
def explodeList (l : List String) : List (Option String) :=
  match l with
  | [] => [none]
  | x :: xs => (x :: xs).map some

/-- The replica of movie `m` carrying exploded genre value `g`; all other
columns are copied unchanged. -/
def Movie.toGRow (m : Movie) (g : Option String) : GRow :=
  { title := m.title, budget := m.budget, revenue := m.revenue,
    vote_average := m.vote_average, release_year := m.release_year,
    original_language := m.original_language,
    production_companies := m.production_companies, genre_name := g }

/-- Line 27: `df_exploded_genres = df.explode("genre_name")`. -/
def explodeGenres (df : List Movie) : List GRow :=
  df.flatMap (fun m => (explodeList (namesOf m.genres)).map m.toGRow)

/-- Duplicate removal keeping the first occurrence, as
`pandas.Series.unique` does. -/
def firstDedup {α : Type} [DecidableEq α] : List α → List α
  | [] => []
  | x :: xs => x :: (firstDedup xs).filter (fun y => decide (y ≠ x))

/-- Lexicographic comparison of character lists by code point. -/
def charListLe : List Char → List Char → Bool
  | [], _ => true
  | _ :: _, [] => false
  | a :: as, b :: bs =>
    if a.toNat < b.toNat then true
    else if b.toNat < a.toNat then false
    else charListLe as bs

/-- Python's string order used by `sorted`: lexicographic by code point
(spelled out over the character list, since the byte-level core order does
not reduce in the kernel). -/
def strLe (a b : String) : Prop :=
  charListLe a.data b.data = true

instance : DecidableRel strLe :=
  fun a b => inferInstanceAs (Decidable (charListLe a.data b.data = true))

/-- Line 29: `sorted(df_exploded_genres["genre_name"].dropna().unique())`. -/
def all_genres (tbl : List GRow) : List String :=
  (firstDedup (tbl.filterMap (fun r => r.genre_name))).insertionSort strLe

/-- The sidebar selection (line 30): the sentinel `"Todos"` or one genre. -/
inductive Selection where
  | todos
  | genre (g : String)

/-- Lines 32-35: the genre filter over the genre-exploded table.  Note the
source assigns the *exploded* table to `df` in both branches. -/
def applyGenreFilter (sel : Selection) (tbl : List GRow) : List GRow :=
  match sel with
  | Selection.todos => tbl
  | Selection.genre g => tbl.filter (fun r => decide (r.genre_name = some g))

/-- Line 42: `len(df)` — the "Total de Filmes" metric, computed on the
active (genre-exploded, possibly filtered) table. -/
def totalFilmes (tbl : List GRow) : Nat :=
  tbl.length

/-- Line 43: `df['budget'].sum()` — pandas `sum` skips `NaN`. -/
def somaOrcamentos (tbl : List GRow) : ℚ :=
  (tbl.filterMap (fun r => r.budget)).sum

/-- Python `round(q, 2)` on the exact values at stake (the half-to-even
versus half-up difference is immaterial to every claim). -/
def roundTo2 (q : ℚ) : ℚ :=
  ((round (q * 100) : ℤ) : ℚ) / 100

/-- Line 44: `round(df['vote_average'].mean(), 2)` — pandas `mean` skips
`NaN` and returns `NaN` (here `none`) on an all-empty column. -/
def mediaNotas (tbl : List GRow) : Option ℚ :=
  let vals := tbl.filterMap (fun r => r.vote_average)
  if vals.length = 0 then none
  else some (roundTo2 (vals.sum / (vals.length : ℚ)))

/-- Lines 49-59: drop rows with an absent year, group by year (pandas
`groupby` sorts keys ascending), count rows per year. -/
def moviesPerYear (tbl : List GRow) : List (Int × Nat) :=
  let years := tbl.filterMap (fun r => r.release_year)
  ((firstDedup years).insertionSort (fun a b => a ≤ b)).map
    (fun y => (y, years.count y))

/-- Line 61: `Series.idxmax` — the first entry attaining the maximum count,
scanning in the series order; `none` models the `ValueError` pandas raises
on an empty series. -/
def idxmaxBy : List (Int × Nat) → Option (Int × Nat)
  | [] => none
  | x :: xs =>
    match idxmaxBy xs with
    | none => some x
    | some q => some (if q.2 > x.2 then q else x)

/-- Line 62: `year_with_most_movies`. -/
def yearWithMostMovies (tbl : List GRow) : Option Int :=
  (idxmaxBy (moviesPerYear tbl)).map (fun p => p.1)

/-- `Series.value_counts()`: occurrence counts per distinct value (`NaN`
excluded by the caller), sorted by count descending; the sort is stable so
ties keep first-appearance order. -/
def valueCounts (vals : List String) : List (String × Nat) :=
  ((firstDedup vals).map (fun k => (k, vals.count k))).insertionSort
    (fun a b => b.2 ≤ a.2)

/-- Line 113: `df["original_language"].value_counts().nlargest(10).index`. -/
def topLanguages (tbl : List GRow) : List String :=
  ((valueCounts (tbl.map (fun r => r.original_language))).take 10).map
    (fun p => p.1)

/-- The replica of genre-row `r` carrying exploded company value `c`. -/
def GRow.toCRow (r : GRow) (c : Option String) : CRow :=
  { title := r.title, budget := r.budget, revenue := r.revenue,
    vote_average := r.vote_average, release_year := r.release_year,
    original_language := r.original_language,
    genre_name := r.genre_name, company_name := c }

/-- Line 137: `df_exploded_companies = df.explode("company_name")` — note
`df` here is the active (genre-exploded, possibly filtered) table. -/
def explodeCompanies (tbl : List GRow) : List CRow :=
  tbl.flatMap (fun r => (explodeList (namesOf r.production_companies)).map
    r.toCRow)

/-- Line 138:
`df_exploded_companies["company_name"].value_counts().head(10)` —
`value_counts` drops the null marker. -/
def companyCounts (tbl : List GRow) : List (String × Nat) :=
  (valueCounts ((explodeCompanies tbl).filterMap
    (fun r => r.company_name))).take 10

/-- Modelled from the spec (refinement side for C9): "arithmetic mean of
vote_average over the active table, ignoring absent values; rounded to 2
decimal places". -/
def specMeanRating (ratings : List (Option ℚ)) : Option ℚ :=
  let present := ratings.reduceOption
  if present.length = 0 then none
  else some (roundTo2 (present.sum / (present.length : ℚ)))

/-- A movie record with the given title, genre list and company list and
neutral values everywhere else (used by concrete scenarios). -/
def mkMovie (t : String) (gs cs : List NamedObj) : Movie :=
  { title := t, budget := none, revenue := 0, vote_average := none,
    release_year := none, original_language := "en", genres := gs,
    production_companies := cs }

/-- Record R1 of the three-record scenario: genres `[Action, Comedy]`. -/
def scenR1 : Movie := mkMovie "R1" [⟨28, "Action"⟩, ⟨35, "Comedy"⟩] []

/-- Record R2 of the three-record scenario: genres `[Action]`. -/
def scenR2 : Movie := mkMovie "R2" [⟨28, "Action"⟩] []

/-- Record R3 of the three-record scenario: no genres. -/
def scenR3 : Movie := mkMovie "R3" [] []

/-- The three-record scenario dataset. -/
def scenario3 : List Movie := [scenR1, scenR2, scenR3]

/-- One movie with two genres and two production companies, exhibiting the
genre-times-company cross product in the company counts. -/
def movieAB : Movie :=
  mkMovie "M" [⟨1, "A"⟩, ⟨2, "B"⟩] [⟨10, "X"⟩, ⟨20, "Y"⟩]

/-- A literal parser that fails on every input (a stand-in for
`ast.literal_eval` applied to malformed text). -/
def badEval : String → Except String (List NamedObj) :=
  fun _ => Except.error "malformed node or string"

/-- A literal parser returning a fixed two-object list on every input. -/
def goodEval : String → Except String (List NamedObj) :=
  fun _ => Except.ok [⟨1, "A"⟩, ⟨2, "B"⟩]

/-- A genre-exploded row with the given title, release year, rating and
company list and neutral values elsewhere. -/
def mkGRow (t : String) (y : Option Int) (v : Option ℚ)
    (cs : List NamedObj) : GRow :=
  { title := t, budget := none, revenue := 0, vote_average := v,
    release_year := y, original_language := "en",
    production_companies := cs, genre_name := none }

/-- Concrete active table whose per-year histogram is
`[(1999, 1), (2000, 2)]`. -/
def tblPeak : List GRow :=
  [mkGRow "a" (some 2000) none [], mkGRow "b" (some 1999) none [],
   mkGRow "c" (some 2000) none []]

/-- Concrete active table with ratings `[5.0, 7.0, absent]`. -/
def tblRatings : List GRow :=
  [mkGRow "a" none (some 5) [], mkGRow "b" none (some 7) [],
   mkGRow "c" none none []]

/-- A row whose movie has exactly one production company, named `"X"`. -/
def rowWithX : GRow := mkGRow "x" none none [⟨10, "X"⟩]

/-- A row whose movie has an empty production-company list. -/
def rowNoCompany : GRow := mkGRow "e" none none []

/-- C1: on the three-record scenario (R1 genres `[Action, Comedy]`, R2
`[Action]`, R3 `[]`) the genre candidate list is `[Action, Comedy]`,
filtering by `"Action"` yields 2 rows and by `"Comedy"` yields 1 row — but
the no-filter "Total de Filmes" metric the code reports is `4`, the length
of the genre-exploded table (R1 twice, plus R3's null-marker row), not the
movie count `3` the claim requires. -/
theorem C1_scenario_eval :
    totalFilmes (applyGenreFilter Selection.todos (explodeGenres scenario3))
        = 4 ∧
    all_genres (explodeGenres scenario3) = ["Action", "Comedy"] ∧
    totalFilmes (applyGenreFilter (Selection.genre "Action")
        (explodeGenres scenario3)) = 2 ∧
    totalFilmes (applyGenreFilter (Selection.genre "Comedy")
        (explodeGenres scenario3)) = 1 := by
  decide

/-- C2: the code applies the company explosion to the genre-exploded active
table (line 137 operates on `df`, which lines 32-35 set to the exploded
view): for a single movie with genres `[A, B]` and companies `[X, Y]` and
no filter selected, each company is counted twice, the cross product the
claim says never happens. -/
theorem C2_cross_product_eval :
    ([movieAB]).length = 1 ∧
    totalFilmes (applyGenreFilter Selection.todos (explodeGenres [movieAB]))
        = 2 ∧
    companyCounts (applyGenreFilter Selection.todos (explodeGenres [movieAB]))
        = [("X", 2), ("Y", 2)] := by
  decide

/-- C3: on an entirely-empty active table the count, budget sum, mean
rating, per-year histogram, per-language top-10 and per-company top-10 all
degrade to empty/zero — but the peak-year lookup does not: `idxmaxBy` on the
empty histogram is `none`, which models the `ValueError` that
`Series.idxmax` raises in pandas (line 61), so the claim's "does not raise"
fails for that aggregator. -/
theorem C3_empty_table_eval :
    totalFilmes ([] : List GRow) = 0 ∧
    somaOrcamentos ([] : List GRow) = 0 ∧
    mediaNotas ([] : List GRow) = none ∧
    moviesPerYear ([] : List GRow) = [] ∧
    idxmaxBy (moviesPerYear ([] : List GRow)) = none ∧
    yearWithMostMovies ([] : List GRow) = none ∧
    topLanguages ([] : List GRow) = [] ∧
    companyCounts ([] : List GRow) = [] := by
  decide

/-- C4: a non-empty, non-absent cell is handed to the literal parser, and a
parse failure propagates out of the Nested-Field Normalizer (line 25 /
lines 133-135 guard only `pd.notna(x) and x != ""` before
`ast.literal_eval`); only the absent and the empty cell are the defined
no-op producing an empty list. -/
theorem C4_malformed_fails_loudly
    (litEval : String → Except String (List NamedObj)) (s msg : String)
    (hs : s ≠ "") (herr : litEval s = Except.error msg) :
    parseListCell litEval (some s) = Except.error msg ∧
    parseListCell litEval none = Except.ok [] ∧
    parseListCell litEval (some "") = Except.ok [] := by
  refine ⟨?_, rfl, by simp [parseListCell]⟩
  simp [parseListCell, hs, herr]

/-- Witness for C4 at a concrete parser and cell. -/
theorem C4_witness :
    parseListCell badEval (some "not a list") =
      Except.error "malformed node or string" ∧
    parseListCell badEval none = Except.ok [] ∧
    parseListCell badEval (some "") = Except.ok [] :=
  C4_malformed_fails_loudly badEval "not a list" "malformed node or string"
    (by decide) rfl

/-- C5: the genre filter (lines 32-35) passes the whole genre-exploded
table through under the `"Todos"` sentinel, and under a genre name keeps
exactly the rows whose exploded `genre_name` equals that name
(case-sensitive string equality; the null-marker rows never match). -/
theorem C5_genre_filter (tbl : List GRow) (g : String) :
    applyGenreFilter Selection.todos tbl = tbl ∧
    (∀ r : GRow, r ∈ applyGenreFilter (Selection.genre g) tbl ↔
      r ∈ tbl ∧ r.genre_name = some g) ∧
    applyGenreFilter (Selection.genre g) tbl =
      tbl.filter (fun r => decide (r.genre_name = some g)) := by
  refine ⟨rfl, fun r => ?_, rfl⟩
  simp [applyGenreFilter, List.mem_filter]

/-- The explosion of one cell always yields `max 1 (length of the list)`
replicas. -/
theorem explodeList_length (l : List String) :
    (explodeList l).length = max 1 l.length := by
  cases l with
  | nil => rfl
  | cons x xs => simp [explodeList, Nat.max_eq_right, Nat.succ_le_succ]

/-- Row count of an explosion over any record list. -/
theorem length_flatMap_explode {α β : Type} (l : List α)
    (f : α → List String) (g : α → Option String → β) :
    (l.flatMap (fun a => (explodeList (f a)).map (g a))).length =
      (l.map (fun a => max 1 (f a).length)).sum := by
  induction l with
  | nil => rfl
  | cons a l ih => simp [List.flatMap_cons, explodeList_length, ih]

/-- C7: the row-expanded table has, for each input record, `max 1 n` rows
where `n` is the length of the exploded list column — one row per element,
or a single null-marker row for an empty list — for both explosions of the
pipeline (lines 27 and 137). -/
theorem C7_explode_row_count (df : List Movie) (tbl : List GRow) :
    (explodeGenres df).length =
      (df.map (fun m => max 1 (namesOf m.genres).length)).sum ∧
    (explodeCompanies tbl).length =
      (tbl.map (fun r => max 1 (namesOf r.production_companies).length)).sum
      := by
  constructor
  · exact length_flatMap_explode df (fun m => namesOf m.genres)
      (fun m => m.toGRow)
  · exact length_flatMap_explode tbl
      (fun r => namesOf r.production_companies) (fun r => r.toCRow)

/-- C8: the normalizer maps the absent and the empty cell to the empty
list, a successfully parsed cell to its parsed object list, and the derived
name column (line 26 / line 136) holds exactly the `name` of every parsed
object, preserving order and length. -/
theorem C8_normalized_names
    (litEval : String → Except String (List NamedObj)) (s : String)
    (objs : List NamedObj) (hs : s ≠ "")
    (hok : litEval s = Except.ok objs) :
    parseListCell litEval none = Except.ok [] ∧
    parseListCell litEval (some "") = Except.ok [] ∧
    parseListCell litEval (some s) = Except.ok objs ∧
    (namesOf objs).length = objs.length ∧
    ∀ i (h1 : i < objs.length) (h2 : i < (namesOf objs).length),
      (namesOf objs).get ⟨i, h2⟩ = (objs.get ⟨i, h1⟩).name := by
  refine ⟨rfl, by simp [parseListCell], ?_, by simp [namesOf], ?_⟩
  · simp [parseListCell, hs, hok]
  · intro i h1 h2
    simp [namesOf]

/-- Witness for C8 at a concrete parser and cell. -/
theorem C8_witness :
    parseListCell goodEval none = Except.ok [] ∧
    parseListCell goodEval (some "") = Except.ok [] ∧
    parseListCell goodEval (some "x") =
      Except.ok [⟨1, "A"⟩, ⟨2, "B"⟩] ∧
    (namesOf [⟨1, "A"⟩, ⟨2, "B"⟩]).length =
      ([⟨1, "A"⟩, ⟨2, "B"⟩] : List NamedObj).length ∧
    ∀ i (h1 : i < ([⟨1, "A"⟩, ⟨2, "B"⟩] : List NamedObj).length)
      (h2 : i < (namesOf [⟨1, "A"⟩, ⟨2, "B"⟩]).length),
      (namesOf [⟨1, "A"⟩, ⟨2, "B"⟩]).get ⟨i, h2⟩ =
        (([⟨1, "A"⟩, ⟨2, "B"⟩] : List NamedObj).get ⟨i, h1⟩).name :=
  C8_normalized_names goodEval "x" [⟨1, "A"⟩, ⟨2, "B"⟩] (by decide) rfl

/-- A non-empty first-occurrence dedup comes from a non-empty list. -/
theorem firstDedup_eq_nil {α : Type} [DecidableEq α] {l : List α}
    (h : firstDedup l = []) : l = [] := by
  cases l with
  | nil => rfl
  | cons x xs => simp [firstDedup] at h

/-- `idxmaxBy` on a non-empty series returns the first entry attaining the
maximum count: the result splits the series as `l₁ ++ p :: l₂` with `p` an
upper bound of all counts and every entry before it strictly below. -/
theorem idxmaxBy_spec (l : List (Int × Nat)) (h : l ≠ []) :
    ∃ p l₁ l₂, idxmaxBy l = some p ∧ l = l₁ ++ p :: l₂ ∧
      (∀ q ∈ l, q.2 ≤ p.2) ∧ (∀ q ∈ l₁, q.2 < p.2) := by
  induction l with
  | nil => exact absurd rfl h
  | cons x xs ih =>
    by_cases hxs : xs = []
    · subst hxs
      refine ⟨x, [], [], by simp [idxmaxBy], by simp, ?_, by simp⟩
      intro q hq
      rw [List.mem_singleton] at hq
      exact hq ▸ le_refl _
    · obtain ⟨p, l₁, l₂, hmax, hsplit, hub, hfirst⟩ := ih hxs
      by_cases hc : p.2 > x.2
      · refine ⟨p, x :: l₁, l₂, ?_, by simp [hsplit], ?_, ?_⟩
        · simp [idxmaxBy, hmax, hc]
        · intro q hq
          rcases List.mem_cons.mp hq with hq | hq
          · exact hq ▸ le_of_lt hc
          · exact hub q hq
        · intro q hq
          rcases List.mem_cons.mp hq with hq | hq
          · exact hq ▸ hc
          · exact hfirst q hq
      · refine ⟨x, [], xs, ?_, rfl, ?_, by simp⟩
        · simp [idxmaxBy, hmax, hc]
        · intro q hq
          rcases List.mem_cons.mp hq with hq | hq
          · exact hq ▸ le_refl _
          · exact le_trans (hub q hq) (Nat.not_lt.mp hc)

/-- A table with at least one parseable release date has a non-empty
per-year histogram. -/
theorem moviesPerYear_ne_nil (tbl : List GRow)
    (h : tbl.filterMap (fun r => r.release_year) ≠ []) :
    moviesPerYear tbl ≠ [] := by
  intro hc
  apply h
  have hlen := congrArg List.length hc
  simp [moviesPerYear, List.length_insertionSort] at hlen
  exact firstDedup_eq_nil hlen

/-- C6: on any active table with at least one parseable release date, the
peak year (lines 61-62) is an entry of the per-year histogram whose count
is a global maximum, every histogram entry strictly before it has a smaller
count (first occurrence of the maximum in the year-ascending ordering), and
a histogram entry that is a strict unique maximum is necessarily the one
returned. -/
theorem C6_peak_year (tbl : List GRow)
    (h : tbl.filterMap (fun r => r.release_year) ≠ []) :
    ∃ p l₁ l₂, idxmaxBy (moviesPerYear tbl) = some p ∧
      yearWithMostMovies tbl = some p.1 ∧
      moviesPerYear tbl = l₁ ++ p :: l₂ ∧
      (∀ q ∈ moviesPerYear tbl, q.2 ≤ p.2) ∧
      (∀ q ∈ l₁, q.2 < p.2) ∧
      (∀ y c, (y, c) ∈ moviesPerYear tbl →
        (∀ q ∈ moviesPerYear tbl, q ≠ (y, c) → q.2 < c) → p = (y, c)) := by
  obtain ⟨p, l₁, l₂, hmax, hsplit, hub, hfirst⟩ :=
    idxmaxBy_spec _ (moviesPerYear_ne_nil tbl h)
  refine ⟨p, l₁, l₂, hmax, ?_, hsplit, hub, hfirst, ?_⟩
  · simp [yearWithMostMovies, hmax]
  · intro y c hmem huniq
    by_contra hne
    have hp : p ∈ moviesPerYear tbl := by
      rw [hsplit]
      exact List.mem_append_right _ (List.mem_cons_self _ _)
    have h1 : p.2 < c := huniq p hp hne
    have h2 : c ≤ p.2 := hub (y, c) hmem
    omega

/-- Witness for C6 at a concrete table whose histogram is
`[(1999, 1), (2000, 2)]`. -/
theorem C6_witness :
    ∃ p l₁ l₂, idxmaxBy (moviesPerYear tblPeak) = some p ∧
      yearWithMostMovies tblPeak = some p.1 ∧
      moviesPerYear tblPeak = l₁ ++ p :: l₂ ∧
      (∀ q ∈ moviesPerYear tblPeak, q.2 ≤ p.2) ∧
      (∀ q ∈ l₁, q.2 < p.2) ∧
      (∀ y c, (y, c) ∈ moviesPerYear tblPeak →
        (∀ q ∈ moviesPerYear tblPeak, q ≠ (y, c) → q.2 < c) → p = (y, c)) :=
  C6_peak_year tblPeak (by decide)

/-- C9: the mean-rating metric (line 44) coincides with the spec's wording
— the arithmetic mean of `vote_average` over the rows where it is present,
absent values ignored, rounded to 2 decimal places — and on the concrete
ratings `[5.0, 7.0, absent]` it is `6.0`. -/
theorem C9_mean_rating (tbl : List GRow) :
    mediaNotas tbl = specMeanRating (tbl.map (fun r => r.vote_average)) ∧
    mediaNotas tblRatings = some 6 := by
  constructor
  · simp [mediaNotas, specMeanRating, List.reduceOption, List.filterMap_map,
      Function.comp]
  · have hv : tblRatings.filterMap (fun r => r.vote_average)
        = [(5 : ℚ), 7] := rfl
    simp only [mediaNotas, hv]
    norm_num [roundTo2, List.sum_cons, List.sum_nil]

/-- Projecting `company_name` back out of the replicas of a list of
genuine (non-null) company names recovers that list. -/
theorem filterMap_map_some_toCRow (g : GRow) (l : List String) :
    ((l.map some).map g.toCRow).filterMap (fun r => r.company_name)
      = l := by
  induction l with
  | nil => rfl
  | cons x xs ih =>
    simpa [List.filterMap_cons, GRow.toCRow] using ih

/-- Dropping the null markers from one exploded cell recovers the cell's
name list. -/
theorem filterMap_explodeList_map (g : GRow) (l : List String) :
    ((explodeList l).map g.toCRow).filterMap (fun r => r.company_name)
      = l := by
  cases l with
  | nil => rfl
  | cons x xs => exact filterMap_map_some_toCRow g (x :: xs)

/-- The non-null company names of the company-exploded table are exactly
the concatenation of the per-row company name lists. -/
theorem filterMap_explodeCompanies (tbl : List GRow) :
    (explodeCompanies tbl).filterMap (fun r => r.company_name) =
      tbl.flatMap (fun g => namesOf g.production_companies) := by
  induction tbl with
  | nil => rfl
  | cons g tbl ih =>
    simp only [explodeCompanies, List.flatMap_cons, List.filterMap_append]
    rw [filterMap_explodeList_map]
    simp only [explodeCompanies] at ih
    rw [ih]

/-- Membership in the first-occurrence dedup implies membership in the
original list. -/
theorem mem_firstDedup {α : Type} [DecidableEq α] {a : α} {l : List α}
    (h : a ∈ firstDedup l) : a ∈ l := by
  induction l with
  | nil => exact absurd h (List.not_mem_nil a)
  | cons x xs ih =>
    rcases List.mem_cons.mp h with h | h
    · exact h ▸ List.mem_cons_self _ _
    · exact List.mem_cons_of_mem _ (ih (List.mem_of_mem_filter h))

/-- C10: the per-company top-10 (line 138) never counts the null marker: a
movie with an empty `production_companies` list contributes nothing — its
row can be removed without changing the counts — and every counted entry is
keyed by an actual company name occurring in some exploded row. -/
theorem C10_no_null_company (l₁ l₂ : List GRow) (r : GRow)
    (h : r.production_companies = []) :
    companyCounts (l₁ ++ r :: l₂) = companyCounts (l₁ ++ l₂) ∧
    ∀ e ∈ companyCounts (l₁ ++ r :: l₂),
      ∃ row ∈ explodeCompanies (l₁ ++ r :: l₂),
        row.company_name = some e.1 := by
  constructor
  · unfold companyCounts
    rw [filterMap_explodeCompanies, filterMap_explodeCompanies]
    simp [List.flatMap_append, List.flatMap_cons, h, namesOf]
  · intro e he
    unfold companyCounts at he
    have h1 := List.mem_of_mem_take he
    unfold valueCounts at h1
    rw [List.mem_insertionSort] at h1
    obtain ⟨k, hk, hek⟩ := List.mem_map.mp h1
    obtain ⟨row, hrow, hsome⟩ := List.mem_filterMap.mp (mem_firstDedup hk)
    refine ⟨row, hrow, ?_⟩
    rw [← hek]
    exact hsome

/-- Witness for C10 at a concrete table: one row whose movie has company
`X` and one row whose movie has no companies. -/
theorem C10_witness :
    companyCounts ([rowWithX] ++ rowNoCompany :: []) =
      companyCounts ([rowWithX] ++ []) ∧
    ∀ e ∈ companyCounts ([rowWithX] ++ rowNoCompany :: []),
      ∃ row ∈ explodeCompanies ([rowWithX] ++ rowNoCompany :: []),
        row.company_name = some e.1 :=
  C10_no_null_company [rowWithX] [] rowNoCompany rfl

end TMDb
